import Mathlib

/-!
Shallow embedding of the Havona ROFL commodity price oracle
(`rofl-oracle/oracle.py`) and proofs about its fetch → normalize →
batch → submit cycle.

The embedding models:
  * `Web3.keccak(text=name)` — a full executable Keccak-256 (the Ethereum
    variant with domain byte 0x01), used to build `COMMODITY_IDS`;
  * `_fetch_commodity` — the adapter's try/except body, over an abstract
    outcome of the HTTP interaction;
  * `fetch_all_prices` — the per-cycle loop filtering positive prices and
    scaling them with Python's `int(price * 1_000_000)` (truncation toward
    zero on an exact decimal value);
  * `submit_prices` — batch construction and the submission-layer outcome,
    where a raised exception is re-raised to the caller;
  * `main`'s `while True` loop — one cycle per list element, with no
    exception handler around `submit_prices`, exactly as in the source.
-/

namespace Oracle

/-! ## Keccak-256 (the hash behind `Web3.keccak(text=...)`) -/

/-- Left rotation of a 64-bit lane, represented as a `Nat` below `2 ^ 64`. -/
def rotl64 (x n : Nat) : Nat :=
  ((x <<< n) ||| (x >>> (64 - n))) % (2 ^ 64)

/-- Lane lookup in a 5 × 5 Keccak state stored as a flat list, index `x + 5 * y`. -/
def lane (s : List Nat) (x y : Nat) : Nat :=
  s.getD (x % 5 + 5 * (y % 5)) 0

/-- Keccak rotation offsets, indexed `rotOffsets[x][y]`. -/
def rotOffsets : List (List Nat) :=
  [[0, 36, 3, 41, 18],
   [1, 44, 10, 45, 2],
   [62, 6, 43, 15, 61],
   [28, 55, 25, 21, 56],
   [27, 20, 39, 8, 14]]

def rotOff (x y : Nat) : Nat :=
  (rotOffsets.getD (x % 5) []).getD (y % 5) 0

/-- Keccak-f[1600] round constants (decimal values of the 24 standard
ι-step constants 0x0000000000000001, 0x0000000000008082, …). -/
def RC : List Nat :=
  [1, 32898, 9223372036854808714, 9223372039002292224,
   32907, 2147483649, 9223372039002292353, 9223372036854808585,
   138, 136, 2147516425, 2147483658,
   2147516555, 9223372036854775947, 9223372036854808713, 9223372036854808579,
   9223372036854808578, 9223372036854775936, 32778, 9223372039002259466,
   9223372039002292353, 9223372036854808704, 2147483649, 9223372039002292232]

/-- One round of Keccak-f[1600]: θ, ρ, π, χ, ι. -/
def keccakRound (s : List Nat) (rc : Nat) : List Nat :=
  let C := (List.range 5).map (fun x =>
    lane s x 0 ^^^ lane s x 1 ^^^ lane s x 2 ^^^ lane s x 3 ^^^ lane s x 4)
  let D := (List.range 5).map (fun x =>
    C.getD ((x + 4) % 5) 0 ^^^ rotl64 (C.getD ((x + 1) % 5) 0) 1)
  let A := (List.range 25).map (fun i => s.getD i 0 ^^^ D.getD (i % 5) 0)
  let B := (List.range 25).foldl (fun b i =>
      let x := i % 5
      let y := i / 5
      b.set (y + 5 * ((2 * x + 3 * y) % 5)) (rotl64 (lane A x y) (rotOff x y)))
    (List.replicate 25 0)
  let E := (List.range 25).map (fun i =>
      let x := i % 5
      let y := i / 5
      lane B x y ^^^ ((lane B (x + 1) y ^^^ (2 ^ 64 - 1)) &&& lane B (x + 2) y))
  match E with
  | e0 :: rest => (e0 ^^^ rc) :: rest
  | [] => []

def keccakF (s : List Nat) : List Nat :=
  RC.foldl keccakRound s

/-- Multi-rate padding with the original Keccak domain byte 0x01 (the variant
used by `Web3.keccak`), rate 136 bytes. -/
def keccakPad (msg : List Nat) : List Nat :=
  let r := 136 - msg.length % 136
  if r = 1 then msg ++ [0x81]
  else msg ++ [0x01] ++ List.replicate (r - 2) 0 ++ [0x80]

/-- Little-endian assembly of up to eight bytes into a 64-bit lane. -/
def bytesToLane (bs : List Nat) : Nat :=
  bs.foldr (fun b acc => b + 256 * acc) 0

def laneToBytes (l : Nat) : List Nat :=
  (List.range 8).map (fun k => (l >>> (8 * k)) % 256)

/-- Absorb all 136-byte blocks of an already padded message. -/
def keccakAbsorb (padded : List Nat) : List Nat :=
  (List.range (padded.length / 136)).foldl
    (fun s i =>
      let block := (padded.drop (136 * i)).take 136
      let lanes := (List.range 17).map (fun j => bytesToLane ((block.drop (8 * j)).take 8))
      keccakF ((List.range 25).map (fun k => s.getD k 0 ^^^ lanes.getD k 0)))
    (List.replicate 25 0)

/-- Keccak-256 digest of a byte string, as the list of its 32 bytes.
Validated against the standard test vectors: the digest of `""` is
`c5d246...a470` and the digest of `"abc"` is `4e0365...6c45`. -/
def keccak256 (msg : List Nat) : List Nat :=
  let s := keccakAbsorb (keccakPad msg)
  ((List.range 4).map (fun j => laneToBytes (s.getD j 0))).flatten

/-- Byte encoding of an ASCII string (for ASCII text this equals its UTF-8,
which is what `Web3.keccak(text=...)` hashes). -/
def asciiBytes (s : String) : List Nat :=
  s.data.map Char.toNat

/-! ## Registry (`COMMODITY_SOURCES`, `COMMODITY_IDS`, oracle.py lines 56-68) -/

/-- The registry: commodity name paired with the provider ticker its fetch
closure queries (`COMMODITY_SOURCES`, in source order). -/
def COMMODITY_TICKERS : List (String × String) :=
  [("CRUDE_OIL_WTI", "CL=F"),
   ("CRUDE_OIL_BRENT", "BZ=F"),
   ("NATURAL_GAS", "NG=F"),
   ("XAU_USD", "GC=F"),
   ("WHEAT_USD", "ZW=F")]

def COMMODITY_NAMES : List String :=
  COMMODITY_TICKERS.map Prod.fst

/-- `COMMODITY_IDS`: `Web3.keccak(text=name)`, the 32-byte digest. -/
def COMMODITY_IDS (name : String) : List Nat :=
  keccak256 (asciiBytes name)

/-! ## Price source adapter (`_fetch_commodity`, oracle.py lines 98-112) -/

/-- Outcome of the HTTP interaction inside `_fetch_commodity`'s try block.
`ok price` carries the provider's quote as the exact decimal value
`Decimal(str(price))` evaluates to. -/
inductive FetchOutcome where
  | networkError
  | httpError (status : Nat)
  | parseError
  | missingField
  | ok (price : ℚ)
deriving DecidableEq

/-- `_fetch_commodity`: every failure of the HTTP interaction is caught by the
`except Exception` handler and becomes `None`; a parsed price is returned. -/
def _fetch_commodity (o : FetchOutcome) : Option ℚ :=
  match o with
  | .ok price => some price
  | _ => none

/-! ## Price normalization (`fetch_all_prices`, oracle.py lines 115-124) -/

/-- Python's `int()` on an exact decimal value: truncation toward zero. -/
def pyInt (q : ℚ) : ℤ :=
  if 0 ≤ q then ⌊q⌋ else -⌊-q⌋

/-- The body of the `if price is not None and price > 0` branch: positive
prices are scaled by `int(price * 1_000_000)`, other prices are dropped. -/
def normalize (price : ℚ) : Option ℤ :=
  if 0 < price then some (pyInt (price * 1000000)) else none

def normalizeQuote (q : Option ℚ) : Option ℤ :=
  match q with
  | some price => normalize price
  | none => none

/-- The `for name, fetch_fn in COMMODITY_SOURCES.items()` loop, generalized
over the registry list. `world` gives each ticker's fetch outcome this cycle. -/
def fetchOver (srcs : List (String × String)) (world : String → FetchOutcome) :
    List (String × ℤ) :=
  srcs.filterMap (fun nt =>
    (normalizeQuote (_fetch_commodity (world nt.2))).map (fun z => (nt.1, z)))

/-- `fetch_all_prices`: the insertion-ordered dict of scaled prices, as an
association list (the five registry names are pairwise distinct). -/
def fetch_all_prices (world : String → FetchOutcome) : List (String × ℤ) :=
  fetchOver COMMODITY_TICKERS world

/-! ## Batch submission (`submit_prices`, oracle.py lines 131-158) -/

/-- Outcome of the transaction machinery inside `submit_prices`' try block. -/
inductive TxResult where
  | success
  | reverted
  | raised
deriving DecidableEq

inductive SubmitAction where
  | skipped
  | submitted (commodities : List (List Nat)) (price_list : List ℤ)
deriving DecidableEq

/-- `submit_prices`: empty input short-circuits to a warning no-op; otherwise
the parallel arrays are built from the dict's iteration order and one
transaction is attempted.  A submission-layer exception is logged and
re-raised (`raise`, line 158), modelled as `Except.error`. -/
def submit_prices (prices : List (String × ℤ)) (tx : TxResult) :
    Except Unit SubmitAction :=
  if prices.isEmpty then Except.ok SubmitAction.skipped
  else
    match tx with
    | .raised => Except.error ()
    | _ => Except.ok (SubmitAction.submitted
        (prices.map (fun pr => COMMODITY_IDS pr.1))
        (prices.map (fun pr => pr.2)))

/-! ## Scheduler (`main`'s while-True loop, oracle.py lines 195-203) -/

structure CycleEnv where
  world : String → FetchOutcome
  tx : TxResult

inductive LoopEvent where
  | skippedCycle
  | submittedCycle (commodities : List (List Nat)) (price_list : List ℤ)
deriving DecidableEq

/-- One iteration of the loop body: fetch, then either the all-failed warning
path (line 201) or a call to `submit_prices` (line 199).  The loop body has no
try/except, so an exception from `submit_prices` propagates out. -/
def mainCycle (env : CycleEnv) : Except Unit LoopEvent :=
  let prices := fetch_all_prices env.world
  if prices.isEmpty then Except.ok LoopEvent.skippedCycle
  else
    match submit_prices prices env.tx with
    | Except.error e => Except.error e
    | Except.ok SubmitAction.skipped => Except.ok LoopEvent.skippedCycle
    | Except.ok (SubmitAction.submitted c pl) =>
        Except.ok (LoopEvent.submittedCycle c pl)

/-- The `while True` loop run over a finite prefix of cycle environments:
it records one event per completed cycle and stops with the escaped
exception as soon as one cycle raises, since `main` installs no handler. -/
def runLoop : List CycleEnv → Except Unit (List LoopEvent)
  | [] => Except.ok []
  | e :: rest =>
    match mainCycle e with
    | Except.error s => Except.error s
    | Except.ok ev =>
      match runLoop rest with
      | Except.error s => Except.error s
      | Except.ok evs => Except.ok (ev :: evs)

/-! ## Shared lemmas -/

/-- A positive price is scaled to the floor of `price * 1000000`: Python's
`int()` truncates toward zero, which on a positive value is the floor. -/
lemma normalize_eq_floor_of_pos (p : ℚ) (h : 0 < p) :
    normalize p = some ⌊p * 1000000⌋ := by
  have h6 : (0 : ℚ) ≤ p * 1000000 := by positivity
  unfold normalize pyInt
  rw [if_pos h, if_pos h6]

/-- A non-positive price fails the `price > 0` guard and is dropped. -/
lemma normalize_eq_none_of_nonpos (p : ℚ) (h : p ≤ 0) :
    normalize p = none := by
  unfold normalize
  rw [if_neg (not_lt.mpr h)]

/-! ## Claims about the normalizer -/

/-- C2: for every decimal price p > 0, the normalizer's output equals
floor(p × 1,000,000); precision beyond the 6th decimal digit is discarded
by truncation toward zero, not rounding. -/
theorem C2_normalize_is_floor (p : ℚ) (h : 0 < p) :
    normalize p = some ⌊p * 1000000⌋ :=
  normalize_eq_floor_of_pos p h

theorem C2_witness :
    (0 : ℚ) < 3.0000019 ∧
      normalize (3.0000019 : ℚ) = some ⌊(3.0000019 : ℚ) * 1000000⌋ :=
  ⟨by norm_num, C2_normalize_is_floor (3.0000019 : ℚ) (by norm_num)⟩

/-- C3 as stated is false on the code: for the adapter price 82.355001 the
normalized value is 82355001 (the product 82.355001 × 10⁶ is exactly the
integer 82355001, so nothing is truncated), not the claimed 82355000. -/
theorem C3_counterexample :
    normalizeQuote (_fetch_commodity (FetchOutcome.ok (82.355001 : ℚ))) ≠
      some 82355000 := by
  unfold normalizeQuote _fetch_commodity normalize pyInt
  norm_num

/-- C3 amended: for the input price 82.355001 (as returned by an adapter for
CRUDE_OIL_WTI), the normalized value is 82355001. -/
theorem C3_amended_value :
    normalizeQuote (_fetch_commodity (FetchOutcome.ok (82.355001 : ℚ))) =
      some 82355001 := by
  unfold normalizeQuote _fetch_commodity normalize pyInt
  norm_num

/-- C4: normalization is monotonic non-decreasing: for prices 0 < p1 ≤ p2,
both normalize and the scaled outputs are ordered. -/
theorem C4_normalize_monotone (p1 p2 : ℚ) (h1 : 0 < p1) (h12 : p1 ≤ p2) :
    ∃ z1 z2, normalize p1 = some z1 ∧ normalize p2 = some z2 ∧ z1 ≤ z2 := by
  have h2 : 0 < p2 := lt_of_lt_of_le h1 h12
  refine ⟨⌊p1 * 1000000⌋, ⌊p2 * 1000000⌋,
    normalize_eq_floor_of_pos p1 h1, normalize_eq_floor_of_pos p2 h2, ?_⟩
  exact Int.floor_mono (by linarith)

theorem C4_witness :
    ∃ z1 z2, normalize (1 : ℚ) = some z1 ∧ normalize (2 : ℚ) = some z2 ∧
      z1 ≤ z2 :=
  C4_normalize_monotone 1 2 (by norm_num) (by norm_num)

/-- C10: the positivity filter admits prices strictly between 0 and 10⁻⁶;
their scaled value truncates to 0, so the commodity enters the batch with
scaled price 0 despite the positivity validation. -/
theorem C10_tiny_positive_submits_zero (p : ℚ) (name t : String)
    (w : String → FetchOutcome)
    (h1 : 0 < p) (h2 : p < 1 / 1000000)
    (hmem : (name, t) ∈ COMMODITY_TICKERS) (hw : w t = FetchOutcome.ok p) :
    normalize p = some 0 ∧ (name, (0 : ℤ)) ∈ fetch_all_prices w := by
  have hfe : ⌊p * 1000000⌋ = 0 := by
    rw [Int.floor_eq_zero_iff, Set.mem_Ico]
    constructor
    · positivity
    · linarith
  have hnorm : normalize p = some 0 := by
    rw [normalize_eq_floor_of_pos p h1, hfe]
  refine ⟨hnorm, ?_⟩
  unfold fetch_all_prices fetchOver
  refine List.mem_filterMap.mpr ⟨(name, t), hmem, ?_⟩
  simp [hw, _fetch_commodity, normalizeQuote, hnorm]

def tinyWorld : String → FetchOutcome := fun t =>
  if t = "CL=F" then FetchOutcome.ok ((1 : ℚ) / 2000000) else FetchOutcome.networkError

theorem C10_witness :
    normalize ((1 : ℚ) / 2000000) = some 0 ∧
      ("CRUDE_OIL_WTI", (0 : ℤ)) ∈ fetch_all_prices tinyWorld :=
  C10_tiny_positive_submits_zero ((1 : ℚ) / 2000000) "CRUDE_OIL_WTI" "CL=F"
    tinyWorld (by norm_num) (by norm_num) (by decide) (by rfl)

/-! ## Claims about the adapter and the skip path -/

/-- C5: a fetched price p ≤ 0 is rejected by normalization, and the cycle's
batch is exactly the one produced had that fetch returned absent instead. -/
theorem C5_nonpositive_price_rejected (w wabs : String → FetchOutcome)
    (t : String) (p : ℚ)
    (hp : p ≤ 0) (hw : w t = FetchOutcome.ok p)
    (habs : wabs t = FetchOutcome.networkError)
    (hagree : ∀ s, s ≠ t → w s = wabs s) :
    normalize p = none ∧ fetch_all_prices w = fetch_all_prices wabs := by
  have hnorm : normalize p = none := normalize_eq_none_of_nonpos p hp
  refine ⟨hnorm, ?_⟩
  unfold fetch_all_prices fetchOver
  apply List.filterMap_congr
  intro nt _
  by_cases hc : nt.2 = t
  · rw [hc, hw, habs]
    simp [_fetch_commodity, normalizeQuote, hnorm]
  · rw [hagree nt.2 hc]

def negWorld : String → FetchOutcome := fun t =>
  if t = "NG=F" then FetchOutcome.ok (-3) else FetchOutcome.networkError

def absWorld : String → FetchOutcome := fun _ => FetchOutcome.networkError

theorem C5_witness :
    normalize (-3 : ℚ) = none ∧
      fetch_all_prices negWorld = fetch_all_prices absWorld :=
  C5_nonpositive_price_rejected negWorld absWorld "NG=F" (-3) (by norm_num)
    (by rfl) (by rfl) (fun s hs => by simp [negWorld, absWorld, hs])

/-- C6: the adapter is total and never propagates an error: every non-`ok`
outcome of the HTTP interaction is converted to the absence value `none`, and
an `ok` outcome returns the parsed price. -/
theorem C6_adapter_never_raises (o : FetchOutcome) :
    _fetch_commodity o = none ∨
      ∃ p, o = FetchOutcome.ok p ∧ _fetch_commodity o = some p := by
  cases o with
  | ok p => exact Or.inr ⟨p, rfl, rfl⟩
  | networkError => exact Or.inl rfl
  | httpError s => exact Or.inl rfl
  | parseError => exact Or.inl rfl
  | missingField => exact Or.inl rfl

/-- C7: if every adapter call in a cycle is absent or non-positive, the batch
is empty, the submitter short-circuits to a no-op, and the cycle completes
normally (no submission transaction and no escaped exception). -/
theorem C7_empty_batch_skips_submission (w : String → FetchOutcome)
    (tx : TxResult)
    (h : ∀ nt ∈ COMMODITY_TICKERS, ∀ p, _fetch_commodity (w nt.2) = some p → p ≤ 0) :
    fetch_all_prices w = [] ∧
      submit_prices (fetch_all_prices w) tx = Except.ok SubmitAction.skipped ∧
      mainCycle ⟨w, tx⟩ = Except.ok LoopEvent.skippedCycle := by
  have hempty : fetch_all_prices w = [] := by
    unfold fetch_all_prices fetchOver
    rw [List.filterMap_eq_nil_iff]
    intro nt hnt
    cases hfc : _fetch_commodity (w nt.2) with
    | none => simp [normalizeQuote, hfc]
    | some p =>
      have hple := h nt hnt p hfc
      simp [normalizeQuote, hfc, normalize_eq_none_of_nonpos p hple]
  refine ⟨hempty, ?_, ?_⟩
  · rw [hempty]
    rfl
  · simp [mainCycle, hempty]

theorem C7_witness :
    fetch_all_prices absWorld = [] ∧
      submit_prices (fetch_all_prices absWorld) TxResult.success =
        Except.ok SubmitAction.skipped ∧
      mainCycle ⟨absWorld, TxResult.success⟩ =
        Except.ok LoopEvent.skippedCycle :=
  C7_empty_batch_skips_submission absWorld TxResult.success
    (fun nt _ p hp => by simp [absWorld, _fetch_commodity] at hp)

/-! ## Claims about batch structure -/

/-- Whether a registry entry's fetch produced a positive price this cycle. -/
def fetchOK (w : String → FetchOutcome) (nt : String × String) : Bool :=
  match _fetch_commodity (w nt.2) with
  | some p => decide (0 < p)
  | none => false

/-- The positivity test of `fetchOK` agrees with whether normalization keeps
the entry. -/
lemma fetchOK_eq_isSome (w : String → FetchOutcome) (nt : String × String) :
    fetchOK w nt = (normalizeQuote (_fetch_commodity (w nt.2))).isSome := by
  unfold fetchOK
  cases _fetch_commodity (w nt.2) with
  | none => rfl
  | some p =>
    by_cases hp : 0 < p
    · simp [normalizeQuote, normalize, hp]
    · simp [normalizeQuote, normalize, hp]

/-- The batch's names are exactly the names of the registry entries whose
fetch succeeded with a positive price, in registry (= evaluation) order. -/
lemma fetchOver_names (w : String → FetchOutcome)
    (srcs : List (String × String)) :
    (fetchOver srcs w).map Prod.fst = (srcs.filter (fetchOK w)).map Prod.fst := by
  unfold fetchOver
  induction srcs with
  | nil => rfl
  | cons nt rest ih =>
    rw [List.filterMap_cons, List.filter_cons]
    cases hq : normalizeQuote (_fetch_commodity (w nt.2)) with
    | none =>
      have h2 : fetchOK w nt = false := by
        rw [fetchOK_eq_isSome, hq]
        rfl
      simp [h2, ih]
    | some z =>
      have h2 : fetchOK w nt = true := by
        rw [fetchOK_eq_isSome, hq]
        rfl
      simp [h2, ih]

/-- A registry entry whose fetch succeeded with a positive price contributes
an entry to the batch. -/
lemma mem_fetchOver_of_ok (w : String → FetchOutcome) (nt : String × String)
    (hmem : nt ∈ COMMODITY_TICKERS) (hok : fetchOK w nt = true) :
    ∃ z, (nt.1, z) ∈ fetch_all_prices w := by
  cases hfc : _fetch_commodity (w nt.2) with
  | none => simp [fetchOK, hfc] at hok
  | some p =>
    have hp : 0 < p := by simpa [fetchOK, hfc] using hok
    refine ⟨pyInt (p * 1000000), ?_⟩
    unfold fetch_all_prices fetchOver
    exact List.mem_filterMap.mpr
      ⟨nt, hmem, by simp [hfc, normalizeQuote, normalize, hp]⟩

/-- C8: when at least one adapter returns a positive price, the submitted
batch's two sequences have equal non-zero length, are aligned
index-for-index, and contain exactly the successful commodities in the order
they were evaluated. -/
theorem C8_batch_parallel_aligned (w : String → FetchOutcome)
    (h : ∃ nt ∈ COMMODITY_TICKERS, fetchOK w nt = true) :
    ∃ c pl, submit_prices (fetch_all_prices w) TxResult.success =
        Except.ok (SubmitAction.submitted c pl) ∧
      c.length = pl.length ∧ 0 < pl.length ∧
      c.zip pl = (fetch_all_prices w).map (fun pr => (COMMODITY_IDS pr.1, pr.2)) ∧
      (fetch_all_prices w).map Prod.fst =
        (COMMODITY_TICKERS.filter (fetchOK w)).map Prod.fst := by
  obtain ⟨nt, hmem, hok⟩ := h
  obtain ⟨z, hz⟩ := mem_fetchOver_of_ok w nt hmem hok
  have hne : fetch_all_prices w ≠ [] := List.ne_nil_of_mem hz
  have hnotempty : (fetch_all_prices w).isEmpty = false := by
    simpa [List.isEmpty_iff] using hne
  refine ⟨(fetch_all_prices w).map (fun pr => COMMODITY_IDS pr.1),
    (fetch_all_prices w).map (fun pr => pr.2), ?_, ?_, ?_, ?_, ?_⟩
  · simp [submit_prices, hnotempty]
  · simp
  · simpa [List.length_pos] using hne
  · exact List.zip_map' _ _ _
  · exact fetchOver_names w COMMODITY_TICKERS

def oneGoodWorld : String → FetchOutcome := fun t =>
  if t = "GC=F" then FetchOutcome.ok 2500 else FetchOutcome.networkError

theorem C8_witness :
    ∃ c pl, submit_prices (fetch_all_prices oneGoodWorld) TxResult.success =
        Except.ok (SubmitAction.submitted c pl) ∧
      c.length = pl.length ∧ 0 < pl.length ∧
      c.zip pl = (fetch_all_prices oneGoodWorld).map
        (fun pr => (COMMODITY_IDS pr.1, pr.2)) ∧
      (fetch_all_prices oneGoodWorld).map Prod.fst =
        (COMMODITY_TICKERS.filter (fetchOK oneGoodWorld)).map Prod.fst :=
  C8_batch_parallel_aligned oneGoodWorld
    ⟨("XAU_USD", "GC=F"), by decide, by
      have hpos : (0 : ℚ) < 2500 := by norm_num
      simp [fetchOK, oneGoodWorld, _fetch_commodity, hpos]⟩

/-! ## Claim about commodity identifiers -/

set_option maxRecDepth 4000 in
/-- C9: identifier computation is deterministic, and the five registered
names are pairwise distinct and map to pairwise-distinct Keccak-256 ids. -/
theorem C9_ids_deterministic_injective :
    (∀ n : String, COMMODITY_IDS n = COMMODITY_IDS n) ∧
      COMMODITY_NAMES.Nodup ∧ (COMMODITY_NAMES.map COMMODITY_IDS).Nodup :=
  ⟨fun _ => rfl, by decide, by decide⟩

/-! ## Claim about the scheduler's reaction to submission errors -/

def crashyWorld : String → FetchOutcome := fun t =>
  if t = "CL=F" then FetchOutcome.ok 80 else FetchOutcome.networkError

/-- A cycle whose fetches partially succeed and whose submission raises a
submission-layer error. -/
def raisingEnv : CycleEnv := ⟨crashyWorld, TxResult.raised⟩

/-- The same cycle with a successful submission. -/
def healthyEnv : CycleEnv := ⟨crashyWorld, TxResult.success⟩

/-- C1 is refuted by the code: `main`'s while-loop has no handler around
`submit_prices`, whose re-raised exception therefore escapes the loop; a run
whose first cycle hits a submission-layer error terminates with that
exception and never reaches the second cycle, whereas the same run without
the error completes both cycles. -/
theorem C1_submission_error_escapes_loop :
    runLoop [raisingEnv, healthyEnv] = Except.error () ∧
      ∃ evs, runLoop [healthyEnv, healthyEnv] = Except.ok evs :=
  ⟨rfl, ⟨_, rfl⟩⟩

end Oracle
